import Mathlib

/-!
Verification of the Vision-Z detection/alerting/description pipeline.

The definitions below are shallow embeddings of the Python sources:
  * `core/object_detector.py`   (relevance filter)
  * `core/audio_feedback.py`    (proximity alerts with cooldown)
  * `core/language_processor.py` (description generation, throttle, fallback)
  * `utils/battery_optimizer.py` (power-mode selection)
  * `core/camera_handler.py`    (bounded frame queue)
  * `utils/distance_estimator.py` (heuristic distance estimation)
Distances and timestamps are modelled as rationals; all literal thresholds
in the sources are exactly representable.
-/

namespace VisionZ

/-- One detection as produced by `ObjectDetector.detect`: class label,
confidence, estimated distance (meters) and horizontal position bucket
(one of "izquierda", "frente", "derecha"). -/
structure Detection where
  cls : String
  confidence : ℚ
  distance : ℚ
  position : String
deriving DecidableEq, Repr

/-- `YOLOConfig.priority_classes` from `app/config.py`. -/
def priority_classes : List String :=
  ["person", "car", "bus", "truck", "bicycle", "motorcycle",
   "chair", "bench", "door", "stairs"]

/-- The loop body of `ObjectDetector.filter_relevant`, deciding for one
detection whether it is kept and with which priority.  The shape mirrors the
Python control flow: the nested priority-class block falls through to the
objects-in-the-path check when the inner distance test fails. -/
def decideDet (d : Detection) : Option String :=
  let onPath : Option String :=
    if d.position = "frente" ∧ d.distance < 4 then some "media" else none
  if d.distance < 2 then some "alta"
  else if d.cls ∈ priority_classes then
    (if d.distance < 5 then some "media" else onPath)
  else onPath

/-- The list of detections kept by `filter_relevant` before truncation,
paired with their assigned priority, in input order. -/
def keptList (dets : List Detection) : List (Detection × String) :=
  dets.filterMap fun d => (decideDet d).map fun p => (d, p)

/-- `ObjectDetector.filter_relevant`: keep relevant detections in input
order and truncate to the first 5 entries. -/
def filter_relevant (dets : List Detection) : List (Detection × String) :=
  (keptList dets).take 5

/-- Modelled from the spec's words (section 4.1): per-detection policy as a
flat list of rules where the first matching rule wins. -/
def specDecide (d : Detection) : Option String :=
  if d.distance < 2 then some "alta"
  else if d.cls ∈ priority_classes ∧ d.distance < 5 then some "media"
  else if d.position = "frente" ∧ d.distance < 4 then some "media"
  else none

lemma decideDet_eq_specDecide (d : Detection) : decideDet d = specDecide d := by
  unfold decideDet specDecide
  by_cases h1 : d.distance < 2 <;>
    by_cases h2 : d.cls ∈ priority_classes <;>
      by_cases h3 : d.distance < 5 <;>
        simp [h1, h2, h3]

lemma keptList_map_fst_sublist (dets : List Detection) :
    ((keptList dets).map Prod.fst).Sublist dets := by
  induction dets with
  | nil => simp [keptList]
  | cons d rest ih =>
    unfold keptList at *
    cases h : decideDet d with
    | none => simpa [h] using ih.cons d
    | some p => simpa [h] using ih.cons₂ d

lemma mem_keptList_of_close {dets : List Detection} {d : Detection}
    (hmem : d ∈ dets) (hlt : d.distance < 2) : (d, "alta") ∈ keptList dets := by
  refine List.mem_filterMap.2 ⟨d, hmem, ?_⟩
  simp [decideDet, if_pos hlt]

/-- C1: `filter_relevant` decides each detection by the first matching rule
of the spec policy (distance < 2.0 → "alta"; priority class and distance
< 5.0 → "media"; position "frente" and distance < 4.0 → "media"; otherwise
dropped), and returns the kept detections in input order truncated to the
first 5. -/
theorem filter_relevant_spec (dets : List Detection) :
    filter_relevant dets =
      (dets.filterMap fun d => (specDecide d).map fun p => (d, p)).take 5 := by
  unfold filter_relevant keptList
  simp only [decideDet_eq_specDecide]

/-- A family of close detections used for concrete evaluations. -/
def closeDet (c : String) : Detection :=
  { cls := c, confidence := 1, distance := 1, position := "frente" }

/-- Six pairwise distinct detections, all at distance 1 m. -/
def sixClose : List Detection :=
  [closeDet "a", closeDet "b", closeDet "c", closeDet "d", closeDet "e",
   closeDet "f"]

/-- C2 counterexample: with six distinct detections all at distance 1 m,
the sixth is closer than 2 m and belongs to the input, yet it does not
appear in the output of `filter_relevant`, which is truncated to 5
entries.  This refutes the claim that every detection with distance < 2.0
appears in the output. -/
theorem close_det_dropped_by_truncation :
    closeDet "f" ∈ sixClose ∧ (closeDet "f").distance < 2 ∧
      closeDet "f" ∉ (filter_relevant sixClose).map Prod.fst := by decide

/-- C2 amended: every detection with distance < 2.0 m is kept by the
relevance rules with priority "alta" regardless of class or position, and
it appears in the output of `filter_relevant` provided the kept list does
not exceed the 5-entry truncation limit. -/
theorem close_det_always_kept (dets : List Detection) (d : Detection)
    (hmem : d ∈ dets) (hlt : d.distance < 2) :
    (d, "alta") ∈ keptList dets ∧
      ((keptList dets).length ≤ 5 → d ∈ (filter_relevant dets).map Prod.fst) := by
  refine ⟨mem_keptList_of_close hmem hlt, fun hlen => ?_⟩
  have hall : filter_relevant dets = keptList dets := by
    unfold filter_relevant
    exact List.take_of_length_le hlen
  rw [hall]
  exact List.mem_map.2 ⟨(d, "alta"), mem_keptList_of_close hmem hlt, rfl⟩

/-- Witness for `close_det_always_kept` at a concrete input. -/
theorem close_det_always_kept_witness :
    (closeDet "a", "alta") ∈ keptList [closeDet "a"] ∧
      ((keptList [closeDet "a"]).length ≤ 5 →
        closeDet "a" ∈ (filter_relevant [closeDet "a"]).map Prod.fst) :=
  close_det_always_kept [closeDet "a"] (closeDet "a") (by decide) (by decide)

/-- C3: the output of `filter_relevant` never has more than 5 entries, and
when the input is sorted by ascending distance the output is a subsequence
of the input whose distances are again sorted ascending (nearest first). -/
theorem filter_relevant_bounded_sorted (dets : List Detection) :
    (filter_relevant dets).length ≤ 5 ∧
      ((dets.map Detection.distance).Sorted (· ≤ ·) →
        ((filter_relevant dets).map Prod.fst).Sublist dets ∧
          ((filter_relevant dets).map (fun p => p.1.distance)).Sorted (· ≤ ·)) := by
  have hsub : ((filter_relevant dets).map Prod.fst).Sublist dets := by
    unfold filter_relevant
    exact ((List.take_sublist 5 (keptList dets)).map Prod.fst).trans
      (keptList_map_fst_sublist dets)
  refine ⟨?_, fun hsorted => ⟨hsub, ?_⟩⟩
  · unfold filter_relevant
    rw [List.length_take]
    exact Nat.min_le_left 5 _
  · have hmm : (filter_relevant dets).map (fun p => p.1.distance) =
        ((filter_relevant dets).map Prod.fst).map Detection.distance := by
      simp [Function.comp]
    rw [hmm]
    exact hsorted.sublist (hsub.map Detection.distance)

/-- Witness for `filter_relevant_bounded_sorted` at a concrete input. -/
theorem filter_relevant_bounded_sorted_witness :
    (filter_relevant [closeDet "a"]).length ≤ 5 ∧
      (([closeDet "a"].map Detection.distance).Sorted (· ≤ ·) →
        ((filter_relevant [closeDet "a"]).map Prod.fst).Sublist [closeDet "a"] ∧
          ((filter_relevant [closeDet "a"]).map
            (fun p => p.1.distance)).Sorted (· ≤ ·)) :=
  filter_relevant_bounded_sorted [closeDet "a"]

/-! Proximity alert system (`ProximityAlertSystem` in `core/audio_feedback.py`). -/

/-- Alert levels distinguished by `check_proximity` ("info" exists in the
`alert_distances` dict but is never assigned). -/
inductive AlertLevel where
  | critical
  | warning
deriving DecidableEq, Repr

/-- The `alert_distances` dict of `ProximityAlertSystem.__init__`. -/
def alert_distances (k : String) : ℚ :=
  if k = "critical" then 1
  else if k = "warning" then 2
  else if k = "info" then 4
  else 0

/-- `ProximityAlertSystem.alert_cooldown` (seconds). -/
def alert_cooldown : ℚ := 3

/-- The alert-level classification inside `check_proximity`. -/
def alertLevel (d : ℚ) : Option AlertLevel :=
  if d < alert_distances "critical" then some .critical
  else if d < alert_distances "warning" then some .warning
  else none

/-- An alert emitted by `check_proximity`: class, level, emission time. -/
structure AlertEvent where
  cls : String
  level : AlertLevel
  time : ℚ
deriving DecidableEq, Repr

/-- Per-class last-alert timestamps (`self.last_alert_time`); a newer entry
for a class shadows older ones, as a dict assignment would. -/
abbrev LastAlert := List (String × ℚ)

/-- `self.last_alert_time.get(obj_class, 0)`. -/
def lookupLast (s : LastAlert) (c : String) : ℚ :=
  match s.find? (fun p => p.1 == c) with
  | some p => p.2
  | none => 0

/-- The body of the detection loop in `check_proximity`: classify one
detection, suppress when the class alerted within the cooldown window,
otherwise emit the alert and record the time. -/
def checkDet (t : ℚ) (acc : LastAlert × List AlertEvent) (d : Detection) :
    LastAlert × List AlertEvent :=
  match alertLevel d.distance with
  | none => acc
  | some lvl =>
    if t - lookupLast acc.1 d.cls < alert_cooldown then acc
    else ((d.cls, t) :: acc.1, acc.2 ++ [⟨d.cls, lvl, t⟩])

/-- `ProximityAlertSystem.check_proximity` at time `t`, threading the
last-alert state and accumulating the log of emitted alerts. -/
def check_proximity (t : ℚ) (dets : List Detection)
    (acc : LastAlert × List AlertEvent) : LastAlert × List AlertEvent :=
  dets.foldl (checkDet t) acc

/-- A whole run: a sequence of `check_proximity` calls, each with its call
time and detection list, starting from the initial empty state. -/
def runCalls (calls : List (ℚ × List Detection)) : LastAlert × List AlertEvent :=
  calls.foldl (fun acc c => check_proximity c.1 c.2 acc) ([], [])

/-- C4: the classification depends only on the distance: critical iff
d < 1, warning iff 1 ≤ d < 2, no alert iff d ≥ 2; in particular 0.8 is
critical, 1.5 is warning and 3.0 yields no alert. -/
theorem alertLevel_characterization (d : ℚ) :
    (alertLevel d = some .critical ↔ d < 1) ∧
      (alertLevel d = some .warning ↔ 1 ≤ d ∧ d < 2) ∧
      (alertLevel d = none ↔ 2 ≤ d) ∧
      alertLevel (mkRat 4 5) = some .critical ∧
      alertLevel (mkRat 3 2) = some .warning ∧
      alertLevel 3 = none := by
  have hform : alertLevel d =
      if d < 1 then some .critical else if d < 2 then some .warning else none := by
    unfold alertLevel
    rw [show alert_distances "critical" = 1 from by decide,
      show alert_distances "warning" = 2 from by decide]
  rw [hform]
  refine ⟨?_, ?_, ?_, by decide, by decide, by decide⟩
  · constructor
    · intro h
      by_contra hn
      rw [if_neg hn] at h
      split_ifs at h
      all_goals simp at h
    · intro h
      rw [if_pos h]
  · constructor
    · intro h
      by_cases h1 : d < 1
      · rw [if_pos h1] at h
        simp at h
      · by_cases h2 : d < 2
        · exact ⟨not_lt.1 h1, h2⟩
        · rw [if_neg h1, if_neg h2] at h
          simp at h
    · rintro ⟨hge, hlt⟩
      rw [if_neg (not_lt.2 hge), if_pos hlt]
  · constructor
    · intro h
      by_cases h1 : d < 1
      · rw [if_pos h1] at h
        simp at h
      · by_cases h2 : d < 2
        · rw [if_neg h1, if_pos h2] at h
          simp at h
        · exact not_lt.1 h2
    · intro hge
      rw [if_neg (by linarith : ¬ d < 1), if_neg (not_lt.2 hge)]

/-- Two alerts are cooldown-compatible when, if they are for the same
class, the later one fires at least `alert_cooldown` after the earlier. -/
def gapOK (a b : AlertEvent) : Prop :=
  a.cls = b.cls → a.time + alert_cooldown ≤ b.time

/-- Invariant tying the last-alert state to the emitted log: every logged
alert is no later than its class's recorded last-alert time, and the log is
pairwise cooldown-compatible. -/
def AlertInv (acc : LastAlert × List AlertEvent) : Prop :=
  (∀ a ∈ acc.2, a.time ≤ lookupLast acc.1 a.cls) ∧ acc.2.Pairwise gapOK

lemma lookupLast_cons (c c' : String) (t : ℚ) (s : LastAlert) :
    lookupLast ((c, t) :: s) c' = if c = c' then t else lookupLast s c' := by
  by_cases h : c = c'
  · subst h
    simp [lookupLast, List.find?]
  · have hb : (c == c') = false := beq_eq_false_iff_ne.2 h
    simp only [lookupLast, List.find?, hb, if_neg h]

lemma checkDet_inv {acc : LastAlert × List AlertEvent} (t : ℚ) (d : Detection)
    (h : AlertInv acc) : AlertInv (checkDet t acc d) := by
  obtain ⟨h1, h2⟩ := h
  unfold checkDet
  cases halert : alertLevel d.distance with
  | none => exact ⟨h1, h2⟩
  | some lvl =>
    dsimp only
    by_cases hcd : t - lookupLast acc.1 d.cls < alert_cooldown
    · rw [if_pos hcd]
      exact ⟨h1, h2⟩
    · rw [if_neg hcd]
      have hge : lookupLast acc.1 d.cls + alert_cooldown ≤ t := by linarith
      have hcool : (0 : ℚ) < alert_cooldown := by norm_num [alert_cooldown]
      constructor
      · intro a ha
        dsimp only at ha ⊢
        rw [List.mem_append, List.mem_singleton] at ha
        rcases ha with ha | rfl
        · rw [lookupLast_cons]
          by_cases hc : d.cls = a.cls
          · rw [if_pos hc]
            have h1a := h1 a ha
            rw [← hc] at h1a
            linarith
          · rw [if_neg hc]
            exact h1 a ha
        · show t ≤ lookupLast ((d.cls, t) :: acc.1) d.cls
          rw [lookupLast_cons, if_pos rfl]
      · dsimp only
        rw [List.pairwise_append]
        refine ⟨h2, List.pairwise_singleton _ _, ?_⟩
        intro a ha b hb
        rw [List.mem_singleton] at hb
        subst hb
        intro hcls
        show a.time + alert_cooldown ≤ t
        have hcls' : a.cls = d.cls := hcls
        have h1a := h1 a ha
        rw [hcls'] at h1a
        linarith

lemma check_proximity_inv (t : ℚ) :
    ∀ (dets : List Detection) (acc : LastAlert × List AlertEvent),
      AlertInv acc → AlertInv (check_proximity t dets acc) := by
  intro dets
  induction dets with
  | nil =>
    intro acc h
    exact h
  | cons d rest ih =>
    intro acc h
    unfold check_proximity at ih ⊢
    rw [List.foldl_cons]
    exact ih _ (checkDet_inv t d h)

lemma runCalls_inv (calls : List (ℚ × List Detection)) :
    AlertInv (runCalls calls) := by
  have base : AlertInv (([], []) : LastAlert × List AlertEvent) := by
    constructor
    · intro a ha
      simp at ha
    · exact List.Pairwise.nil
  unfold runCalls
  generalize (([], []) : LastAlert × List AlertEvent) = acc at base ⊢
  induction calls generalizing acc with
  | nil => exact base
  | cons c rest ih =>
    rw [List.foldl_cons]
    exact ih _ (check_proximity_inv c.1 c.2 acc base)

/-- C5: over any run of `check_proximity` calls with non-decreasing call
times, the emitted alert log is pairwise cooldown-compatible: two alerts
for the same class are never less than `alert_cooldown = 3` seconds
apart. -/
theorem check_proximity_cooldown (calls : List (ℚ × List Detection))
    (_hmono : ((calls.map Prod.fst).Sorted (· ≤ ·))) :
    (runCalls calls).2.Pairwise gapOK :=
  (runCalls_inv calls).2

/-- Witness for `check_proximity_cooldown` at a concrete run: two calls
one second apart, each seeing the same nearby object. -/
theorem check_proximity_cooldown_witness :
    (runCalls [(10, [closeDet "person"]), (11, [closeDet "person"])]).2.Pairwise
      gapOK :=
  check_proximity_cooldown [(10, [closeDet "person"]), (11, [closeDet "person"])]
    (by norm_num [List.sorted_cons])

/-! Language processor (`core/language_processor.py`). -/

/-- Outcome of the external Ollama description call: an HTTP response with
status and response text, a timeout, or any other raised exception. -/
inductive OllamaOutcome where
  | response (status : ℕ) (body : String)
  | timeout
  | failure (msg : String)
deriving DecidableEq, Repr

/-- The failing outcomes of the external call: non-200 status, timeout, or
a raised exception. -/
def OllamaOutcome.isFailure : OllamaOutcome → Prop
  | .response status _ => status ≠ 200
  | .timeout => True
  | .failure _ => True

/-- `LanguageProcessor._translate_class`: COCO class names to Spanish,
defaulting to the input (`translations.get(class_name, class_name)`). -/
def translate_class (c : String) : String :=
  if c = "person" then "persona"
  else if c = "car" then "auto"
  else if c = "truck" then "camión"
  else if c = "bicycle" then "bicicleta"
  else if c = "motorcycle" then "motocicleta"
  else if c = "bus" then "autobús"
  else if c = "chair" then "silla"
  else if c = "door" then "puerta"
  else if c = "stairs" then "escaleras"
  else if c = "bench" then "banco"
  else if c = "bottle" then "botella"
  else if c = "cup" then "taza"
  else if c = "fork" then "tenedor"
  else if c = "knife" then "cuchillo"
  else if c = "cell phone" then "teléfono"
  else if c = "laptop" then "computadora"
  else if c = "dog" then "perro"
  else if c = "cat" then "gato"
  else if c = "tree" then "árbol"
  else c

/-- Python's `s.rsplit(".", 1)[0]`: everything before the last dot, or the
whole string when there is no dot. -/
def rsplitDotHead (s : String) : String :=
  match s.splitOn "." with
  | [] => s
  | [_] => s
  | _ :: _ :: _ => String.intercalate "." (s.splitOn ".").dropLast

/-- `LanguageProcessor._clean_description`: drop markup characters, strip,
and cap the length at 200 characters on a sentence boundary. -/
def clean_description (s : String) : String :=
  let t := ((s.replace "*" "").replace "#" "").trim
  if t.length > 200 then rsplitDotHead (t.take 200) ++ "." else t

/-- `LanguageProcessor._fallback_description`: one canned sentence built
from the first (nearest) detection. -/
def fallback_description (dets : List Detection) : String :=
  match dets with
  | [] => "Camino despejado"
  | d :: _ =>
    let obj_es := translate_class d.cls
    let urgencia :=
      if d.distance < mkRat 3 2 then "muy cerca"
      else if d.distance < 3 then "cerca"
      else ""
    if d.position = "frente" then obj_es ++ " " ++ urgencia ++ " frente a ti"
    else obj_es ++ " " ++ urgencia ++ " a tu " ++ d.position

/-- `LanguageProcessor.generate_description`, with the external call's
outcome made explicit: on success the cleaned response text is returned; on
a non-200 status, a timeout or any other exception the fallback sentence is
returned instead of propagating the error. -/
def generate_description (o : OllamaOutcome) (dets : List Detection) : String :=
  if dets.isEmpty then "Camino despejado"
  else
    match o with
    | .response status body =>
      if status = 200 then clean_description body.trim
      else fallback_description dets
    | .timeout => fallback_description dets
    | .failure _ => fallback_description dets

/-- Modelled from the spec's words: the qualitative distance word of the
fallback sentence. -/
def distanceWord (dist : ℚ) : String :=
  if dist < mkRat 3 2 then "muy cerca" else if dist < 3 then "cerca" else ""

/-- Modelled from the spec's words: the direction part of the fallback
sentence. -/
def directionWord (pos : String) : String :=
  if pos = "frente" then "frente a ti" else "a tu " ++ pos

lemma string_append_split (A pre suf tail : String) :
    (A ++ (pre ++ suf)) ++ tail = (A ++ pre) ++ (suf ++ tail) := by
  rw [String.append_assoc, String.append_assoc, String.append_assoc]

lemma fallback_description_decompose (d : Detection) (rest : List Detection) :
    fallback_description (d :: rest) =
      translate_class d.cls ++ " " ++ distanceWord d.distance ++ " " ++
        directionWord d.position := by
  unfold fallback_description distanceWord directionWord
  dsimp only
  by_cases hp : d.position = "frente"
  · rw [if_pos hp, if_pos hp]
    rw [show (" frente a ti" : String) = " " ++ "frente a ti" from by decide]
    exact (String.append_assoc _ " " "frente a ti").symm
  · rw [if_neg hp, if_neg hp]
    rw [show (" a tu " : String) = " " ++ "a tu " from by decide]
    exact string_append_split _ " " "a tu " d.position

/-- C7: for a non-empty detection list and any failing external call
(non-200 status, timeout, or exception), `generate_description` returns the
fallback sentence instead of raising; the sentence is built from the first
(nearest) detection — the translated object name, the qualitative distance
word and the direction — and is never empty. -/
theorem generate_description_failure_fallback (o : OllamaOutcome)
    (d : Detection) (rest : List Detection) (hfail : o.isFailure) :
    generate_description o (d :: rest) = fallback_description (d :: rest) ∧
      fallback_description (d :: rest) =
        translate_class d.cls ++ " " ++ distanceWord d.distance ++ " " ++
          directionWord d.position ∧
      fallback_description (d :: rest) ≠ "" := by
  refine ⟨?_, fallback_description_decompose d rest, ?_⟩
  · unfold generate_description
    rw [if_neg (by simp : ¬(d :: rest).isEmpty = true)]
    cases o with
    | response status body =>
      exact if_neg hfail
    | timeout => rfl
    | failure msg => rfl
  · intro hempty
    rw [fallback_description_decompose d rest] at hempty
    have hlen := congrArg String.length hempty
    simp only [String.length_append] at hlen
    have hone : (" " : String).length = 1 := by decide
    rw [hone] at hlen
    simp at hlen

/-- Witness for `generate_description_failure_fallback`: a timeout with a
single nearby person. -/
theorem generate_description_failure_fallback_witness :
    generate_description OllamaOutcome.timeout [closeDet "person"] =
        fallback_description [closeDet "person"] ∧
      fallback_description [closeDet "person"] =
        translate_class (closeDet "person").cls ++ " " ++
          distanceWord (closeDet "person").distance ++ " " ++
          directionWord (closeDet "person").position ∧
      fallback_description [closeDet "person"] ≠ "" :=
  generate_description_failure_fallback OllamaOutcome.timeout
    (closeDet "person") [] trivial

/-- `AdaptiveLanguageProcessor.danger_threshold` (meters). -/
def danger_threshold : ℚ := 2

/-- `PerformanceConfig.min_time_between_descriptions` default (seconds). -/
def min_time_between_descriptions : ℚ := 2

/-- `AdaptiveLanguageProcessor.generate_description`: given the last
emission time, the current time, the configured minimum interval and the
current detections, return the new last-emission time together with the
generated description, or `none` when the throttle suppresses output. -/
def adaptive_generate (o : OllamaOutcome) (last now min_interval : ℚ)
    (dets : List Detection) : ℚ × Option String :=
  if dets.any (fun d => d.distance < danger_threshold) then
    (now, some (generate_description o dets))
  else if now - last < min_interval then (last, none)
  else (now, some (generate_description o dets))

/-- C6: the description throttle.  A detection closer than the 2 m danger
threshold forces an immediate description and resets the timestamp;
otherwise a description is produced exactly when the elapsed time since the
last emission reaches the configured minimum interval (default 2 s), and a
suppressed tick returns `none` with the timestamp unchanged. -/
theorem adaptive_generate_throttle (o : OllamaOutcome)
    (last now min_interval : ℚ) (dets : List Detection) :
    ((∃ d ∈ dets, d.distance < danger_threshold) →
        adaptive_generate o last now min_interval dets =
          (now, some (generate_description o dets))) ∧
      ((∀ d ∈ dets, ¬ d.distance < danger_threshold) →
        (min_interval ≤ now - last →
          adaptive_generate o last now min_interval dets =
            (now, some (generate_description o dets))) ∧
        (now - last < min_interval →
          adaptive_generate o last now min_interval dets = (last, none))) ∧
      min_time_between_descriptions = 2 := by
  refine ⟨?_, ?_, rfl⟩
  · intro hdanger
    unfold adaptive_generate
    rw [if_pos (by simpa using hdanger)]
  · intro hsafe
    have hany : dets.any (fun d => d.distance < danger_threshold) = false := by
      simpa using hsafe
    constructor
    · intro helapsed
      unfold adaptive_generate
      rw [if_neg (by simp [hany]), if_neg (not_lt.2 helapsed)]
    · intro hearly
      unfold adaptive_generate
      rw [if_neg (by simp [hany]), if_pos hearly]

/-- A detection further than the danger threshold, for witnesses. -/
def farDet : Detection :=
  { cls := "person", confidence := 1, distance := 3, position := "frente" }

/-- Witness for `adaptive_generate_throttle`: a danger tick and both
no-danger branches at concrete times. -/
theorem adaptive_generate_throttle_witness :
    adaptive_generate OllamaOutcome.timeout 0 1 2 [closeDet "person"] =
        (1, some (generate_description OllamaOutcome.timeout
          [closeDet "person"])) ∧
      adaptive_generate OllamaOutcome.timeout 0 5 2 [farDet] =
        (5, some (generate_description OllamaOutcome.timeout [farDet])) ∧
      adaptive_generate OllamaOutcome.timeout 0 1 2 [farDet] = (0, none) :=
  ⟨(adaptive_generate_throttle OllamaOutcome.timeout 0 1 2
      [closeDet "person"]).1 ⟨closeDet "person", by decide, by decide⟩,
    ((adaptive_generate_throttle OllamaOutcome.timeout 0 5 2 [farDet]).2.1
      (by decide)).1 (by norm_num),
    ((adaptive_generate_throttle OllamaOutcome.timeout 0 1 2 [farDet]).2.1
      (by decide)).2 (by norm_num)⟩

/-! Battery optimizer (`utils/battery_optimizer.py`). -/

/-- `PowerMode` enum. -/
inductive PowerMode where
  | performance
  | balanced
  | power_saver
  | ultra_saver
deriving DecidableEq, Repr

/-- The `thresholds` dict of `BatteryOptimizer.__init__`. -/
def thresholds (k : String) : ℤ :=
  if k = "ultra_saver" then 10
  else if k = "power_saver" then 20
  else if k = "balanced" then 50
  else if k = "performance" then 80
  else 0

/-- The mode selected by `BatteryOptimizer.update_battery_status` as a
function of the battery level and the charging flag. -/
def update_battery_status (level : ℤ) (is_charging : Bool) : PowerMode :=
  if is_charging then .performance
  else if level ≤ thresholds "ultra_saver" then .ultra_saver
  else if level ≤ thresholds "power_saver" then .power_saver
  else if level ≤ thresholds "balanced" then .balanced
  else .performance

/-- Modelled from the spec's words: ordering of the four power profiles
from lowest to highest power. -/
def powerRank : PowerMode → ℕ
  | .ultra_saver => 0
  | .power_saver => 1
  | .balanced => 2
  | .performance => 3

/-- C8: power-mode selection is a pure function of level and charging flag:
charging always selects performance; otherwise the mode is determined by
the 10/20/50 thresholds, and the selection is monotone in the level (a
lower battery level never selects a higher-power profile). -/
theorem update_battery_status_spec (level : ℤ) :
    (update_battery_status level true = .performance) ∧
      (update_battery_status level false = .ultra_saver ↔ level ≤ 10) ∧
      (update_battery_status level false = .power_saver ↔
        10 < level ∧ level ≤ 20) ∧
      (update_battery_status level false = .balanced ↔
        20 < level ∧ level ≤ 50) ∧
      (update_battery_status level false = .performance ↔ 50 < level) ∧
      (∀ l₁ l₂ : ℤ, l₁ ≤ l₂ →
        powerRank (update_battery_status l₁ false) ≤
          powerRank (update_battery_status l₂ false)) := by
  have hform : ∀ l : ℤ, update_battery_status l false =
      if l ≤ 10 then .ultra_saver
      else if l ≤ 20 then .power_saver
      else if l ≤ 50 then .balanced
      else .performance := by
    intro l
    unfold update_battery_status
    rw [show thresholds "ultra_saver" = 10 from by decide,
      show thresholds "power_saver" = 20 from by decide,
      show thresholds "balanced" = 50 from by decide]
    rfl
  refine ⟨rfl, ?_, ?_, ?_, ?_, ?_⟩
  · rw [hform]
    split_ifs with h1 h2 h3
    all_goals simp_all
  · rw [hform]
    split_ifs with h1 h2 h3
    all_goals simp_all
  · rw [hform]
    split_ifs with h1 h2 h3
    all_goals simp_all
    all_goals omega
  · rw [hform]
    split_ifs with h1 h2 h3
    all_goals simp_all
    all_goals omega
  · intro l₁ l₂ hle
    rw [hform, hform]
    split_ifs
    all_goals simp only [powerRank]
    all_goals omega

/-- Witness for `update_battery_status_spec`: monotonicity applied at the
concrete levels 15 and 60. -/
theorem update_battery_status_spec_witness :
    powerRank (update_battery_status 15 false) ≤
      powerRank (update_battery_status 60 false) :=
  (update_battery_status_spec 15).2.2.2.2.2 15 60 (by decide)

/-! Camera frame queue (`core/camera_handler.py`). -/

/-- `CameraConfig.frame_buffer_size` from `app/config.py`. -/
def frame_buffer_size : ℕ := 10

/-- A step of the frame queue: the capture loop offering a frame, or the
consumer taking one (`CameraHandler.read`). -/
inductive CamOp (α : Type) where
  | put (f : α)
  | get

/-- `self.frame_queue.full()` for a `Queue(maxsize=maxsize)`. -/
def queueFull {α : Type} (maxsize : ℕ) (q : List α) : Bool :=
  decide (0 < maxsize ∧ maxsize ≤ q.length)

/-- The enqueue attempt of `CameraHandler._capture_loop`: the frame is
appended only when the queue is not full, otherwise it is discarded and the
queue is left untouched. -/
def capture_offer {α : Type} (maxsize : ℕ) (q : List α) (f : α) : List α :=
  if queueFull maxsize q then q else q ++ [f]

/-- One queue transition. -/
def camStep {α : Type} (maxsize : ℕ) (q : List α) : CamOp α → List α
  | .put f => capture_offer maxsize q f
  | .get => q.tail

/-- A run of queue transitions from the initially empty queue. -/
def camRun {α : Type} (maxsize : ℕ) (ops : List (CamOp α)) : List α :=
  ops.foldl (camStep maxsize) []

lemma camStep_length_le {α : Type} (maxsize : ℕ) (hpos : 0 < maxsize)
    (q : List α) (op : CamOp α) (hq : q.length ≤ maxsize) :
    (camStep maxsize q op).length ≤ maxsize := by
  cases op with
  | put f =>
    show (capture_offer maxsize q f).length ≤ maxsize
    unfold capture_offer
    by_cases hfull : queueFull maxsize q = true
    · rw [if_pos hfull]
      exact hq
    · rw [if_neg hfull]
      simp only [List.length_append, List.length_singleton]
      have hlt : q.length < maxsize := by
        unfold queueFull at hfull
        simp only [decide_eq_true_eq] at hfull
        push_neg at hfull
        exact hfull hpos
      omega
  | get =>
    show q.tail.length ≤ maxsize
    calc q.tail.length ≤ q.length := by
          rw [List.length_tail]
          omega
      _ ≤ maxsize := hq

/-- C9: with a positive capacity, the frame queue never exceeds the
configured capacity over any run; moreover a full queue drops the offered
(newest) frame and keeps every queued frame unchanged, while a non-full
queue appends the new frame at the back. -/
theorem frame_queue_bounded {α : Type} (maxsize : ℕ) (hpos : 0 < maxsize) :
    (∀ ops : List (CamOp α), (camRun maxsize ops).length ≤ maxsize) ∧
      (∀ (q : List α) (f : α), maxsize ≤ q.length →
        capture_offer maxsize q f = q) ∧
      (∀ (q : List α) (f : α), q.length < maxsize →
        capture_offer maxsize q f = q ++ [f]) := by
  refine ⟨?_, ?_, ?_⟩
  · intro ops
    unfold camRun
    have hgen : ∀ (l : List (CamOp α)) (q : List α), q.length ≤ maxsize →
        (l.foldl (camStep maxsize) q).length ≤ maxsize := by
      intro l
      induction l with
      | nil =>
        intro q hq
        exact hq
      | cons op rest ih =>
        intro q hq
        rw [List.foldl_cons]
        exact ih _ (camStep_length_le maxsize hpos q op hq)
    exact hgen ops [] (by simp)
  · intro q f hfull
    unfold capture_offer queueFull
    rw [if_pos (by simpa using And.intro hpos hfull)]
  · intro q f hroom
    unfold capture_offer queueFull
    rw [if_neg (by simp; omega)]

/-- Witness for `frame_queue_bounded` at the configured capacity 10, with a
run that offers to a full queue. -/
theorem frame_queue_bounded_witness :
    (∀ ops : List (CamOp ℕ), (camRun frame_buffer_size ops).length ≤
        frame_buffer_size) ∧
      (∀ (q : List ℕ) (f : ℕ), frame_buffer_size ≤ q.length →
        capture_offer frame_buffer_size q f = q) ∧
      (∀ (q : List ℕ) (f : ℕ), q.length < frame_buffer_size →
        capture_offer frame_buffer_size q f = q ++ [f]) :=
  frame_queue_bounded frame_buffer_size (by decide)

/-! Distance estimator (`utils/distance_estimator.py`). -/

/-- A bounding box in pixel coordinates. -/
structure Bbox where
  x1 : ℚ
  y1 : ℚ
  x2 : ℚ
  y2 : ℚ
deriving DecidableEq, Repr

/-- `estimate_distance`: heuristic distance from the size of the box
relative to the frame width. -/
def estimate_distance (bbox : Bbox) (frame_width : ℚ) : ℚ :=
  let pixel_width := bbox.x2 - bbox.x1
  let pixel_height := bbox.y2 - bbox.y1
  let pixel_size := max pixel_width pixel_height
  let size_ratio := pixel_size / frame_width
  if size_ratio > mkRat 1 2 then 1
  else if size_ratio > mkRat 3 10 then mkRat 3 2
  else if size_ratio > mkRat 1 5 then mkRat 5 2
  else if size_ratio > mkRat 1 10 then 4
  else 6

lemma alertLevel_ne_critical_of_one_le {d : ℚ} (h : 1 ≤ d) :
    alertLevel d ≠ some .critical := by
  unfold alertLevel
  rw [show alert_distances "critical" = 1 from by decide,
    show alert_distances "warning" = 2 from by decide,
    if_neg (not_lt.2 h)]
  split_ifs <;> simp

/-- C10: for every bounding box and positive frame width, the basic
estimator returns one of the five values 1, 1.5, 2.5, 4, 6 — never below
1 m — so a detection whose distance comes from `estimate_distance` is never
classified as a critical proximity alert. -/
theorem estimate_distance_range (bbox : Bbox) (frame_width : ℚ)
    (_hpos : 0 < frame_width) :
    estimate_distance bbox frame_width ∈
        ([1, mkRat 3 2, mkRat 5 2, 4, 6] : List ℚ) ∧
      1 ≤ estimate_distance bbox frame_width ∧
      alertLevel (estimate_distance bbox frame_width) ≠ some .critical := by
  have hrange : estimate_distance bbox frame_width ∈
      ([1, mkRat 3 2, mkRat 5 2, 4, 6] : List ℚ) := by
    unfold estimate_distance
    dsimp only
    split_ifs
    all_goals simp
  have hone : 1 ≤ estimate_distance bbox frame_width := by
    rcases List.mem_cons.1 hrange with h | h
    · rw [h]
    rcases List.mem_cons.1 h with h | h
    · rw [h]
      norm_num [mkRat, Rat.normalize]
    rcases List.mem_cons.1 h with h | h
    · rw [h]
      norm_num [mkRat, Rat.normalize]
    rcases List.mem_cons.1 h with h | h
    · rw [h]
      norm_num
    rcases List.mem_cons.1 h with h | h
    · rw [h]
      norm_num
    · simp at h
  exact ⟨hrange, hone, alertLevel_ne_critical_of_one_le hone⟩

/-- Witness for `estimate_distance_range` at a concrete box and frame. -/
theorem estimate_distance_range_witness :
    estimate_distance ⟨0, 0, 100, 50⟩ 640 ∈
        ([1, mkRat 3 2, mkRat 5 2, 4, 6] : List ℚ) ∧
      1 ≤ estimate_distance ⟨0, 0, 100, 50⟩ 640 ∧
      alertLevel (estimate_distance ⟨0, 0, 100, 50⟩ 640) ≠ some .critical :=
  estimate_distance_range ⟨0, 0, 100, 50⟩ 640 (by decide)

end VisionZ
